import Mathlib

/-!
Verification of the jarvis-ai core: the intent classifier (`core/nlp_engine.py`),
the command dispatcher (`core/jarvis.py` handlers) and the text-mode
conversation loop (`JARVIS.main_loop` / `save_interaction` / `stop`).
Python strings are embedded as Lean `String`; `kw in text` is an explicit
substring scan; the two float confidence constants are embedded as exact
rationals (no float arithmetic occurs in the source); numeric fields of the
system-information snapshot are embedded as the decimal strings the Python
f-strings interpolate.
-/

namespace Jarvis

/-- The `CommandType` enum of `core/nlp_engine.py`. -/
inductive CommandType where
  | greeting
  | system_info
  | file_operation
  | control
  | query
  | unknown
deriving DecidableEq

/-- Prefix test on character lists: `needle` is an initial segment of `hay`. -/
def isPrefixL : List Char → List Char → Bool
  | [], _ => true
  | _ :: _, [] => false
  | a :: as, b :: bs => a == b && isPrefixL as bs

/-- Substring scan on character lists: `needle` occurs at some position. -/
def containsL (needle : List Char) : List Char → Bool
  | [] => isPrefixL needle []
  | c :: cs => isPrefixL needle (c :: cs) || containsL needle cs

/-- Python's `needle in hay` membership test on strings. -/
def isSubstring (needle hay : String) : Bool :=
  containsL needle.data hay.data

/-- Python `str.lower` on one character (the inputs involved are ASCII). -/
def charLower (c : Char) : Char :=
  if c.toNat ≥ 65 ∧ c.toNat ≤ 90 then Char.ofNat (c.toNat + 32) else c

/-- Python `str.upper` on one character (the inputs involved are ASCII). -/
def charUpper (c : Char) : Char :=
  if c.toNat ≥ 97 ∧ c.toNat ≤ 122 then Char.ofNat (c.toNat - 32) else c

/-- The whitespace characters removed by Python `str.strip()` in the ASCII
range. -/
def isSpaceC (c : Char) : Bool :=
  c == ' ' || c == '\t' || c == '\n' || c == '\r' || c == '\x0b' || c == '\x0c'

/-- Python `str.strip()` on a character list: drop whitespace at both ends. -/
def stripL (cs : List Char) : List Char :=
  ((cs.dropWhile isSpaceC).reverse.dropWhile isSpaceC).reverse

/-- Python `str.lower()`. -/
def lowerS (s : String) : String :=
  String.mk (s.data.map charLower)

/-- Python `str.upper()`. -/
def upperS (s : String) : String :=
  String.mk (s.data.map charUpper)

/-- Python `str.strip()`. -/
def stripS (s : String) : String :=
  String.mk (stripL s.data)

/-- The ordered keyword table `self.commands` of `NLPEngine.__init__`,
in Python dict insertion order. -/
def commands : List (String × List String) :=
  [("greeting", ["hello", "hi", "hey jarvis", "good morning", "good evening"]),
   ("system_info", ["what is my", "tell me", "show me", "get", "system"]),
   ("file_operation", ["open", "read", "write", "delete", "file"]),
   ("control", ["shutdown", "restart", "sleep", "lock"]),
   ("query", ["how", "what", "why", "when", "where"])]

/-- Python `CommandType[name]`: enum member lookup by member name,
`none` standing for the `KeyError` case. -/
def enumLookup : String → Option CommandType
  | "GREETING" => some .greeting
  | "SYSTEM_INFO" => some .system_info
  | "FILE_OPERATION" => some .file_operation
  | "CONTROL" => some .control
  | "QUERY" => some .query
  | "UNKNOWN" => some .unknown
  | _ => none

/-- The `try: return CommandType[intent_type.upper()] except KeyError: ...`
block of `NLPEngine._detect_intent`, including its backwards-compatibility
fallback mapping. -/
def resolveKey (name : String) : CommandType :=
  match enumLookup (upperS name) with
  | some c => c
  | none => if name == "file" || name == "file_operation" then .file_operation else .unknown

/-- The category scan of `NLPEngine._detect_intent`: first category any of
whose keywords occurs as a substring of the text wins. -/
def scanIntent (text : String) : List (String × List String) → CommandType
  | [] => .unknown
  | (name, kws) :: rest =>
    if kws.any (fun kw => isSubstring kw text) then resolveKey name
    else scanIntent text rest

/-- `NLPEngine._detect_intent` applied to the fixed keyword table. -/
def detectIntent (text : String) : CommandType :=
  scanIntent text commands

/-- The normalization `text.lower().strip()` at the top of `NLPEngine.analyze`. -/
def normalize (text : String) : String :=
  stripS (lowerS text)

/-- `NLPEngine._extract_entities`: currently always the empty sequence. -/
def extractEntities (_text : String) : List String :=
  []

/-- `NLPEngine._calculate_confidence`: 0.3 for Unknown, 0.85 otherwise. -/
def calculateConfidence (_text : String) (intent : CommandType) : ℚ :=
  if intent = CommandType.unknown then 0.3 else 0.85

/-- The result dictionary of `NLPEngine.analyze`. -/
structure Analysis where
  text : String
  intent : CommandType
  entities : List String
  confidence : ℚ
deriving DecidableEq

/-- `NLPEngine.analyze`: normalize, detect intent, extract entities,
compute confidence. -/
def analyze (text : String) : Analysis :=
  let t := normalize text
  { text := t
    intent := detectIntent t
    entities := extractEntities t
    confidence := calculateConfidence t (detectIntent t) }

/-- The dictionary returned by `SystemAccess.get_system_info` as consumed by
`JARVIS.handle_system_info`; numeric values are embedded as the decimal
strings the Python f-strings interpolate. -/
structure SystemInfoSnapshot where
  cpu_percent : String
  memory_available : String
  disk_free : String
  platform : String
  cpu_count : String
deriving DecidableEq

/-- `JARVIS.handle_greeting`. -/
def handle_greeting : String :=
  "Good to see you. How can I assist you today?"

/-- `JARVIS.handle_system_info`: case-sensitive substring checks against the
original (non-normalized) user input, in the order cpu/processor, memory/ram,
disk, default. -/
def handle_system_info (snap : SystemInfoSnapshot) (user_input : String) : String :=
  if isSubstring "cpu" user_input || isSubstring "processor" user_input then
    "Your CPU usage is at " ++ snap.cpu_percent ++ " percent"
  else if isSubstring "memory" user_input || isSubstring "ram" user_input then
    "Memory available: " ++ snap.memory_available
  else if isSubstring "disk" user_input then
    "Disk space free: " ++ snap.disk_free
  else
    "System is running on " ++ snap.platform ++ " with " ++ snap.cpu_count ++ " processors"

/-- `JARVIS.handle_file_operation`: fixed placeholder. -/
def handle_file_operation (_user_input : String) : String :=
  "File operation feature coming soon"

/-- `JARVIS.handle_control`: acknowledgment text only, no system call. -/
def handle_control (user_input : String) : String :=
  if isSubstring "shutdown" user_input then "Shutdown command received"
  else if isSubstring "restart" user_input then "Restart command received"
  else "Control command not recognized"

/-- `JARVIS.handle_query`: fixed placeholder. -/
def handle_query (_user_input : String) : String :=
  "I will search for that information for you"

/-- `JARVIS.process_command`: classify, then dispatch on the intent, passing
the original user input to the handlers. -/
def process_command (snap : SystemInfoSnapshot) (user_input : String) : String :=
  match (analyze user_input).intent with
  | .greeting => handle_greeting
  | .system_info => handle_system_info snap user_input
  | .file_operation => handle_file_operation user_input
  | .control => handle_control user_input
  | .query => handle_query user_input
  | .unknown => "I did not understand that. Could you please repeat?"

/-- One entry of the `conversations.json` log written by
`JARVIS.save_interaction`. -/
structure InteractionRecord where
  timestamp : String
  user_input : String
  response : String
deriving DecidableEq

/-- `JARVIS.save_interaction`: read the whole file if present, append the new
record in memory, rewrite the whole file. The file is `none` when absent.
The flag `ok` models whether the surrounding file I/O succeeds; on failure
(the `except` branch) the write does not take effect, the record is dropped
and an error line goes to the logger's diagnostic channel. Returns the new
file contents and the emitted diagnostics. -/
def save_interaction (ok : Bool) (file : Option (List InteractionRecord))
    (ts user_input response : String) :
    Option (List InteractionRecord) × List String :=
  if ok then
    let conversations := file.getD []
    (some (conversations ++ [⟨ts, user_input, response⟩]), [])
  else
    (file, ["Error saving interaction"])

/-- Reading the conversation log back: the JSON array in the file, empty when
the file was never written. -/
def read_log (file : Option (List InteractionRecord)) : List InteractionRecord :=
  file.getD []

/-- The exit phrases of the text-mode branch of `JARVIS.main_loop`. -/
def exitPhrases : List String :=
  ["exit", "quit", "shutdown", "power down"]

/-- Observable state of the text-mode conversation loop: the running flag,
the log file contents, the trace of spoken responses and the trace of
diagnostic (logger error) lines. -/
structure LoopState where
  running : Bool
  file : Option (List InteractionRecord)
  spoken : List String
  diagnostics : List String
deriving DecidableEq

/-- `JARVIS.stop`: clear the running flag and speak the farewell. -/
def stop (st : LoopState) : LoopState :=
  { st with running := false
            spoken := st.spoken ++ ["Powering down. Goodbye sir."] }

/-- The text-mode `while self.running` loop of `JARVIS.main_loop`, driven by
the list of lines the user will type (exhausting the list is the `EOFError`
path, which calls `stop`). `times` supplies the `datetime.now()` timestamps
and `oks` the success of each `save_interaction` call, both consumed one per
processed line. -/
def textLoop (snap : SystemInfoSnapshot) :
    LoopState → List String → List String → List Bool → LoopState
  | st, [], _, _ => if st.running then stop st else st
  | st, line :: rest, times, oks =>
    if st.running then
      if line = "" then
        textLoop snap st rest times oks
      else if exitPhrases.contains (lowerS (stripS line)) then
        stop st
      else
        let response := process_command snap line
        let saved := save_interaction (oks.headD true) st.file (times.headD "") line response
        textLoop snap
          { st with file := saved.1
                    spoken := st.spoken ++ [response]
                    diagnostics := st.diagnostics ++ saved.2 }
          rest times.tail oks.tail
    else st

/-- Folding `JARVIS.save_interaction` over a list of
(timestamp, user input, response) calls, every call succeeding. -/
def appendAll (file : Option (List InteractionRecord)) :
    List (String × String × String) → Option (List InteractionRecord)
  | [] => file
  | (ts, ui, resp) :: rest => appendAll (save_interaction true file ts ui resp).1 rest

/-- The snapshot of end-to-end scenario B: cpu percent 42.0 (embedded as its
decimal rendering), with arbitrary values for the remaining fields. -/
def snapB : SystemInfoSnapshot :=
  { cpu_percent := "42.0"
    memory_available := "7.5 GB"
    disk_free := "120 GB"
    platform := "Linux"
    cpu_count := "8" }

/-- The loop state right after entering text mode: running, no log file yet,
nothing spoken or diagnosed in the window under observation. -/
def st0 : LoopState :=
  { running := true, file := none, spoken := [], diagnostics := [] }

theorem analyze_intent (text : String) :
    (analyze text).intent = detectIntent (normalize text) := rfl

theorem analyze_confidence (text : String) :
    (analyze text).confidence
      = calculateConfidence (normalize text) (detectIntent (normalize text)) := rfl

theorem confidence_of_known (text : String)
    (h : detectIntent (normalize text) ≠ CommandType.unknown) :
    (analyze text).confidence = 0.85 := by
  rw [analyze_confidence]
  unfold calculateConfidence
  rw [if_neg h]

theorem confidence_of_unknown (text : String)
    (h : detectIntent (normalize text) = CommandType.unknown) :
    (analyze text).confidence = 0.3 := by
  rw [analyze_confidence]
  unfold calculateConfidence
  rw [if_pos h]

/-- The category scan returns the first entry whose keyword list matches,
independent of what comes after it. -/
theorem scanIntent_first (t : String) (pre : List (String × List String))
    (name : String) (kws : List String) (post : List (String × List String))
    (hpre : ∀ p ∈ pre, p.2.any (fun kw => isSubstring kw t) = false)
    (hmatch : kws.any (fun kw => isSubstring kw t) = true) :
    scanIntent t (pre ++ (name, kws) :: post) = resolveKey name := by
  induction pre with
  | nil => simp [scanIntent, hmatch]
  | cons p0 pre ih =>
    obtain ⟨n0, k0⟩ := p0
    have h0 : k0.any (fun kw => isSubstring kw t) = false :=
      hpre (n0, k0) (List.mem_cons_self _ _)
    simp only [List.cons_append, scanIntent, h0, Bool.false_eq_true, if_false]
    exact ih (fun p hp => hpre p (List.mem_cons_of_mem _ hp))

/-- Claim C1: classify on "what is my system status" returns the SystemInfo
intent, not Query; categories are tested in the fixed declaration order
Greeting, SystemInfo, FileOperation, Control, Query, and the first category
any of whose keywords occurs as a substring of the normalized text wins. -/
theorem claim_C1 :
    (∀ (text : String) (pre : List (String × List String)) (name : String)
       (kws : List String) (post : List (String × List String)),
       commands = pre ++ (name, kws) :: post →
       (∀ p ∈ pre, p.2.any (fun kw => isSubstring kw (normalize text)) = false) →
       kws.any (fun kw => isSubstring kw (normalize text)) = true →
       (analyze text).intent = resolveKey name)
    ∧ (analyze "what is my system status").intent = CommandType.system_info
    ∧ ("query", ["how", "what", "why", "when", "where"]) ∈ commands
    ∧ isSubstring "what" (normalize "what is my system status") = true
    ∧ (analyze "what is my system status").intent ≠ CommandType.query := by
  refine ⟨?_, by decide, by decide, by decide, by decide⟩
  intro text pre name kws post hcmd hpre hmatch
  rw [analyze_intent]
  unfold detectIntent
  rw [hcmd]
  exact scanIntent_first (normalize text) pre name kws post hpre hmatch

theorem claim_C1_witness :
    (analyze "hello").intent = resolveKey "greeting" :=
  claim_C1.1 "hello" [] "greeting"
    ["hello", "hi", "hey jarvis", "good morning", "good evening"]
    [("system_info", ["what is my", "tell me", "show me", "get", "system"]),
     ("file_operation", ["open", "read", "write", "delete", "file"]),
     ("control", ["shutdown", "restart", "sleep", "lock"]),
     ("query", ["how", "what", "why", "when", "where"])]
    rfl (by simp) (by decide)

/-- Claim C3: classify is total (the embedding is a total function); whenever
no listed keyword of any category occurs as a substring of the normalized
text, it returns intent Unknown with confidence exactly 0.3. -/
theorem claim_C3 (text : String)
    (h : ∀ p ∈ commands, p.2.any (fun kw => isSubstring kw (normalize text)) = false) :
    (analyze text).intent = CommandType.unknown
    ∧ (analyze text).confidence = 0.3 := by
  have h1 := h ("greeting", ["hello", "hi", "hey jarvis", "good morning", "good evening"])
    (by simp [commands])
  have h2 := h ("system_info", ["what is my", "tell me", "show me", "get", "system"])
    (by simp [commands])
  have h3 := h ("file_operation", ["open", "read", "write", "delete", "file"])
    (by simp [commands])
  have h4 := h ("control", ["shutdown", "restart", "sleep", "lock"])
    (by simp [commands])
  have h5 := h ("query", ["how", "what", "why", "when", "where"])
    (by simp [commands])
  simp only at h1 h2 h3 h4 h5
  have hint : detectIntent (normalize text) = CommandType.unknown := by
    unfold detectIntent
    simp [commands, scanIntent, h1, h2, h3, h4, h5]
  exact ⟨by rw [analyze_intent]; exact hint, confidence_of_unknown text hint⟩

theorem claim_C3_witness :
    (analyze "").intent = CommandType.unknown ∧ (analyze "").confidence = 0.3 :=
  claim_C3 "" (by decide)

/-- Claim C10: because keyword matching is plain substring containment and
Greeting is tested first, every input whose normalized text contains "hi"
anywhere classifies as Greeting, whatever later categories would match; in
particular "open this file" is Greeting, not FileOperation. -/
theorem claim_C10 :
    (∀ text : String, isSubstring "hi" (normalize text) = true →
       (analyze text).intent = CommandType.greeting)
    ∧ (analyze "open this file").intent = CommandType.greeting
    ∧ (analyze "open this file").intent ≠ CommandType.file_operation := by
  refine ⟨?_, by decide, by decide⟩
  intro text h
  rw [analyze_intent]
  unfold detectIntent
  have hmatch : (["hello", "hi", "hey jarvis", "good morning", "good evening"].any
      (fun kw => isSubstring kw (normalize text))) = true := by
    simp [h]
  have := scanIntent_first (normalize text) [] "greeting"
    ["hello", "hi", "hey jarvis", "good morning", "good evening"]
    [("system_info", ["what is my", "tell me", "show me", "get", "system"]),
     ("file_operation", ["open", "read", "write", "delete", "file"]),
     ("control", ["shutdown", "restart", "sleep", "lock"]),
     ("query", ["how", "what", "why", "when", "where"])]
    (by simp) hmatch
  have hres : resolveKey "greeting" = CommandType.greeting := by decide
  simpa [commands, hres] using this

theorem claim_C10_witness :
    (analyze "open this file").intent = CommandType.greeting :=
  claim_C10.1 "open this file" (by decide)

/-- Claim C2: for every input whose normalized form contains at least one
keyword of exactly one category and no keyword of any other category,
classify returns that category (never Unknown) with confidence exactly 0.85. -/
theorem claim_C2 (text name : String) (kws : List String)
    (hmem : (name, kws) ∈ commands)
    (hmatch : kws.any (fun kw => isSubstring kw (normalize text)) = true)
    (hothers : ∀ p ∈ commands, p.1 ≠ name →
      p.2.any (fun kw => isSubstring kw (normalize text)) = false) :
    (analyze text).intent = resolveKey name
    ∧ resolveKey name ≠ CommandType.unknown
    ∧ (analyze text).confidence = 0.85 := by
  simp only [commands, List.mem_cons, List.not_mem_nil, or_false, Prod.mk.injEq] at hmem
  rcases hmem with ⟨rfl, rfl⟩ | ⟨rfl, rfl⟩ | ⟨rfl, rfl⟩ | ⟨rfl, rfl⟩ | ⟨rfl, rfl⟩
  · have hint : detectIntent (normalize text) = resolveKey "greeting" := by
      unfold detectIntent
      exact scanIntent_first (normalize text) [] "greeting" _ _ (by simp) hmatch
    exact ⟨by rw [analyze_intent]; exact hint, by decide,
      confidence_of_known text (by rw [hint]; decide)⟩
  · have h1 := hothers ("greeting", ["hello", "hi", "hey jarvis", "good morning", "good evening"])
      (by simp [commands]) (by decide)
    simp only at h1
    have hint : detectIntent (normalize text) = resolveKey "system_info" := by
      unfold detectIntent
      refine scanIntent_first (normalize text)
        [("greeting", ["hello", "hi", "hey jarvis", "good morning", "good evening"])]
        "system_info" _ _ ?_ hmatch
      intro p hp
      simp only [List.mem_singleton] at hp
      subst hp
      exact h1
    exact ⟨by rw [analyze_intent]; exact hint, by decide,
      confidence_of_known text (by rw [hint]; decide)⟩
  · have h1 := hothers ("greeting", ["hello", "hi", "hey jarvis", "good morning", "good evening"])
      (by simp [commands]) (by decide)
    have h2 := hothers ("system_info", ["what is my", "tell me", "show me", "get", "system"])
      (by simp [commands]) (by decide)
    simp only at h1 h2
    have hint : detectIntent (normalize text) = resolveKey "file_operation" := by
      unfold detectIntent
      refine scanIntent_first (normalize text)
        [("greeting", ["hello", "hi", "hey jarvis", "good morning", "good evening"]),
         ("system_info", ["what is my", "tell me", "show me", "get", "system"])]
        "file_operation" _ _ ?_ hmatch
      intro p hp
      simp only [List.mem_cons, List.not_mem_nil, or_false] at hp
      rcases hp with rfl | rfl
      · exact h1
      · exact h2
    exact ⟨by rw [analyze_intent]; exact hint, by decide,
      confidence_of_known text (by rw [hint]; decide)⟩
  · have h1 := hothers ("greeting", ["hello", "hi", "hey jarvis", "good morning", "good evening"])
      (by simp [commands]) (by decide)
    have h2 := hothers ("system_info", ["what is my", "tell me", "show me", "get", "system"])
      (by simp [commands]) (by decide)
    have h3 := hothers ("file_operation", ["open", "read", "write", "delete", "file"])
      (by simp [commands]) (by decide)
    simp only at h1 h2 h3
    have hint : detectIntent (normalize text) = resolveKey "control" := by
      unfold detectIntent
      refine scanIntent_first (normalize text)
        [("greeting", ["hello", "hi", "hey jarvis", "good morning", "good evening"]),
         ("system_info", ["what is my", "tell me", "show me", "get", "system"]),
         ("file_operation", ["open", "read", "write", "delete", "file"])]
        "control" _ _ ?_ hmatch
      intro p hp
      simp only [List.mem_cons, List.not_mem_nil, or_false] at hp
      rcases hp with rfl | rfl | rfl
      · exact h1
      · exact h2
      · exact h3
    exact ⟨by rw [analyze_intent]; exact hint, by decide,
      confidence_of_known text (by rw [hint]; decide)⟩
  · have h1 := hothers ("greeting", ["hello", "hi", "hey jarvis", "good morning", "good evening"])
      (by simp [commands]) (by decide)
    have h2 := hothers ("system_info", ["what is my", "tell me", "show me", "get", "system"])
      (by simp [commands]) (by decide)
    have h3 := hothers ("file_operation", ["open", "read", "write", "delete", "file"])
      (by simp [commands]) (by decide)
    have h4 := hothers ("control", ["shutdown", "restart", "sleep", "lock"])
      (by simp [commands]) (by decide)
    simp only at h1 h2 h3 h4
    have hint : detectIntent (normalize text) = resolveKey "query" := by
      unfold detectIntent
      refine scanIntent_first (normalize text)
        [("greeting", ["hello", "hi", "hey jarvis", "good morning", "good evening"]),
         ("system_info", ["what is my", "tell me", "show me", "get", "system"]),
         ("file_operation", ["open", "read", "write", "delete", "file"]),
         ("control", ["shutdown", "restart", "sleep", "lock"])]
        "query" _ _ ?_ hmatch
      intro p hp
      simp only [List.mem_cons, List.not_mem_nil, or_false] at hp
      rcases hp with rfl | rfl | rfl | rfl
      · exact h1
      · exact h2
      · exact h3
      · exact h4
    exact ⟨by rw [analyze_intent]; exact hint, by decide,
      confidence_of_known text (by rw [hint]; decide)⟩

theorem claim_C2_witness :
    (analyze "hello there").intent = resolveKey "greeting"
    ∧ resolveKey "greeting" ≠ CommandType.unknown
    ∧ (analyze "hello there").confidence = 0.85 :=
  claim_C2 "hello there" "greeting"
    ["hello", "hi", "hey jarvis", "good morning", "good evening"]
    (by decide) (by decide) (by decide)

/-- Claim C4: for the SystemInfo intent the handler inspects the original
(non-normalized, case-sensitive) text in the priority order cpu/processor,
then memory/ram, then disk, else platform and processor count; in particular
"tell me about cpu" with cpu percent 42.0 yields exactly
"Your CPU usage is at 42.0 percent" (while the upper-case "CPU" variant
falls through to the default branch, showing case sensitivity). -/
theorem claim_C4 :
    (∀ (snap : SystemInfoSnapshot) (text : String),
       (isSubstring "cpu" text || isSubstring "processor" text) = true →
       handle_system_info snap text = "Your CPU usage is at " ++ snap.cpu_percent ++ " percent")
    ∧ (∀ (snap : SystemInfoSnapshot) (text : String),
       (isSubstring "cpu" text || isSubstring "processor" text) = false →
       (isSubstring "memory" text || isSubstring "ram" text) = true →
       handle_system_info snap text = "Memory available: " ++ snap.memory_available)
    ∧ (∀ (snap : SystemInfoSnapshot) (text : String),
       (isSubstring "cpu" text || isSubstring "processor" text) = false →
       (isSubstring "memory" text || isSubstring "ram" text) = false →
       isSubstring "disk" text = true →
       handle_system_info snap text = "Disk space free: " ++ snap.disk_free)
    ∧ (∀ (snap : SystemInfoSnapshot) (text : String),
       (isSubstring "cpu" text || isSubstring "processor" text) = false →
       (isSubstring "memory" text || isSubstring "ram" text) = false →
       isSubstring "disk" text = false →
       handle_system_info snap text =
         "System is running on " ++ snap.platform ++ " with " ++ snap.cpu_count ++ " processors")
    ∧ process_command snapB "tell me about cpu" = "Your CPU usage is at 42.0 percent"
    ∧ process_command snapB "tell me about CPU" = "System is running on Linux with 8 processors" := by
  refine ⟨?_, ?_, ?_, ?_, by decide, by decide⟩
  · intro snap text h
    simp [handle_system_info, h]
  · intro snap text h1 h2
    simp [handle_system_info, h1, h2]
  · intro snap text h1 h2 h3
    simp [handle_system_info, h1, h2, h3]
  · intro snap text h1 h2 h3
    simp [handle_system_info, h1, h2, h3]

theorem claim_C4_witness :
    handle_system_info snapB "processor load"
      = "Your CPU usage is at " ++ snapB.cpu_percent ++ " percent" :=
  claim_C4.1 snapB "processor load" (by decide)

/-- Claim C5: the Control handler returns "Shutdown command received" if the
text contains "shutdown", else "Restart command received" if it contains
"restart", else "Control command not recognized"; it is a pure function whose
value is always one of these three acknowledgment strings, so no
operating-system shutdown or restart is performed. -/
theorem claim_C5 :
    (∀ text : String, isSubstring "shutdown" text = true →
       handle_control text = "Shutdown command received")
    ∧ (∀ text : String, isSubstring "shutdown" text = false →
       isSubstring "restart" text = true →
       handle_control text = "Restart command received")
    ∧ (∀ text : String, isSubstring "shutdown" text = false →
       isSubstring "restart" text = false →
       handle_control text = "Control command not recognized")
    ∧ (∀ text : String, handle_control text ∈
        ["Shutdown command received", "Restart command received",
         "Control command not recognized"])
    ∧ process_command snapB "shutdown" = "Shutdown command received" := by
  refine ⟨?_, ?_, ?_, ?_, by decide⟩
  · intro text h
    simp [handle_control, h]
  · intro text h1 h2
    simp [handle_control, h1, h2]
  · intro text h1 h2
    simp [handle_control, h1, h2]
  · intro text
    unfold handle_control
    split
    · simp
    · split
      · simp
      · simp

theorem claim_C5_witness :
    handle_control "please shutdown now" = "Shutdown command received" :=
  claim_C5.1 "please shutdown now" (by decide)

/-- Claim C6: in text mode, a read line whose trimmed lower-cased form is one
of the exit phrases moves the loop to Stopped: the farewell is spoken, that
line is never classified, dispatched or appended to the log (the state change
is exactly `stop`), and from the stopped state no further input is processed
and no log write is performed, whatever input follows. -/
theorem claim_C6 (snap : SystemInfoSnapshot) (st : LoopState) (line : String)
    (rest times : List String) (oks : List Bool)
    (hrun : st.running = true)
    (hexit : exitPhrases.contains (lowerS (stripS line)) = true) :
    textLoop snap st (line :: rest) times oks = stop st
    ∧ (stop st).file = st.file
    ∧ (stop st).spoken = st.spoken ++ ["Powering down. Goodbye sir."]
    ∧ (stop st).running = false
    ∧ ∀ (more times2 : List String) (oks2 : List Bool),
        textLoop snap (stop st) more times2 oks2 = stop st := by
  have hline : ¬(line = "") := by
    intro h
    subst h
    exact absurd hexit (by decide)
  have hexitm : lowerS (stripS line) ∈ exitPhrases := by simpa using hexit
  refine ⟨?_, rfl, rfl, rfl, ?_⟩
  · simp [textLoop, hrun, hline, hexitm]
  · intro more times2 oks2
    cases more with
    | nil => simp [textLoop, stop]
    | cons m ms => simp [textLoop, stop]

theorem claim_C6_witness :
    textLoop snapB st0 ["exit", "hello"] [] [] = stop st0 :=
  (claim_C6 snapB st0 "exit" ["hello"] [] [] rfl (by decide)).1

/-- Claim C7: in text mode an empty read line is skipped without any
classification, dispatch, spoken response or log append — the loop state for
the rest of the input is exactly as if the line had not been read; a line of
whitespace only does NOT count as empty and is processed (here producing an
Unknown-intent interaction that is appended to the log). -/
theorem claim_C7 :
    (∀ (snap : SystemInfoSnapshot) (st : LoopState) (rest times : List String)
       (oks : List Bool), st.running = true →
       textLoop snap st ("" :: rest) times oks = textLoop snap st rest times oks)
    ∧ (textLoop snapB st0 [" "] ["t0"] [true]).file
        = some [⟨"t0", " ", "I did not understand that. Could you please repeat?"⟩] := by
  refine ⟨?_, by decide⟩
  intro snap st rest times oks hrun
  simp [textLoop, hrun]

theorem claim_C7_witness :
    textLoop snapB st0 ["", "hi there"] [] [] = textLoop snapB st0 ["hi there"] [] [] :=
  claim_C7.1 snapB st0 ["hi there"] [] [] rfl

/-- Claim C8: appending N interaction records to the log (every append
succeeding) and then reading the log back yields exactly those N records in
insertion order, each carrying the literal user input and response strings
passed to the append call. -/
theorem claim_C8 (calls : List (String × String × String)) :
    read_log (appendAll none calls)
      = calls.map (fun c => (⟨c.1, c.2.1, c.2.2⟩ : InteractionRecord)) := by
  have general : ∀ (cs : List (String × String × String))
      (file : Option (List InteractionRecord)),
      read_log (appendAll file cs)
        = read_log file ++ cs.map (fun c => (⟨c.1, c.2.1, c.2.2⟩ : InteractionRecord)) := by
    intro cs
    induction cs with
    | nil => intro file; simp [appendAll]
    | cons c cs ih =>
      intro file
      obtain ⟨ts, ui, resp⟩ := c
      show read_log (appendAll (save_interaction true file ts ui resp).1 cs) = _
      rw [show (save_interaction true file ts ui resp).1
          = some (file.getD [] ++ [⟨ts, ui, resp⟩]) from rfl, ih]
      simp [read_log]
  simpa [read_log] using general calls none

theorem claim_C8_witness :
    read_log (appendAll none [("t1", "a", "ra"), ("t2", "b", "rb")])
      = [⟨"t1", "a", "ra"⟩, ⟨"t2", "b", "rb"⟩] :=
  claim_C8 [("t1", "a", "ra"), ("t2", "b", "rb")]

/-- Claim C9: when persisting an interaction record fails with an I/O error,
the failure is recovered locally: the append call still returns, the error is
reported on the diagnostic channel, the record is dropped (the file is
unchanged), and the loop continues with the next iteration on the remaining
input instead of aborting. -/
theorem claim_C9 (snap : SystemInfoSnapshot) (st : LoopState) (line ts : String)
    (rest times : List String) (oks : List Bool)
    (hrun : st.running = true)
    (hline : line ≠ "")
    (hexit : exitPhrases.contains (lowerS (stripS line)) = false) :
    (save_interaction false st.file ts line (process_command snap line)).1 = st.file
    ∧ (save_interaction false st.file ts line (process_command snap line)).2
        = ["Error saving interaction"]
    ∧ textLoop snap st (line :: rest) (ts :: times) (false :: oks)
        = textLoop snap
            { st with
              spoken := st.spoken ++ [process_command snap line]
              diagnostics := st.diagnostics ++ ["Error saving interaction"] }
            rest times oks := by
  have hexitm : lowerS (stripS line) ∉ exitPhrases := by simpa using hexit
  refine ⟨rfl, rfl, ?_⟩
  simp [textLoop, hrun, hline, hexitm, save_interaction]

theorem claim_C9_witness :
    textLoop snapB st0 ["hello"] ["t0"] [false]
      = textLoop snapB
          { st0 with
            spoken := st0.spoken ++ [process_command snapB "hello"]
            diagnostics := st0.diagnostics ++ ["Error saving interaction"] }
          [] [] [] :=
  (claim_C9 snapB st0 "hello" "t0" [] [] [] rfl (by decide) (by decide)).2.2

end Jarvis
